import Mathlib

/-!
Verification of the `like-sqlite` adapter (src/index.js): a shallow embedding
of the adapter methods of `LikeSQLite` and of the slice of the embedded
engine (better-sqlite3) behaviour they depend on, followed by theorems
settling the specification claims.
-/

/-- A JavaScript value, as far as the adapter manipulates them: the rows
returned by `stmt.all`/`stmt.get` are plain objects, `query` returns arrays,
`execute` resolves with the engine info object. -/
inductive JSVal where
  | null
  | undefined
  | bool (b : Bool)
  | int (n : Int)
  | str (s : String)
  | arr (xs : List JSVal)
  | obj (fields : List (String × JSVal))
deriving Repr

/-- A row object, as materialized by the engine: an ordered list of
(column name, value) pairs, in declaration order (JS object key order). -/
abbrev Obj := List (String × JSVal)

mutual

/-- Structural equality of JavaScript values (deep equality of the plain data
objects the adapter handles). -/
def JSVal.beq : JSVal → JSVal → Bool
  | .null, .null => true
  | .undefined, .undefined => true
  | .bool a, .bool b => a == b
  | .int a, .int b => a == b
  | .str a, .str b => a == b
  | .arr xs, .arr ys => JSVal.beqList xs ys
  | .obj fs, .obj gs => JSVal.beqFields fs gs
  | _, _ => false

/-- Elementwise equality of arrays of JavaScript values. -/
def JSVal.beqList : List JSVal → List JSVal → Bool
  | [], [] => true
  | x :: xs, y :: ys => JSVal.beq x y && JSVal.beqList xs ys
  | _, _ => false

/-- Fieldwise equality of object field lists. -/
def JSVal.beqFields : List (String × JSVal) → List (String × JSVal) → Bool
  | [], [] => true
  | (k, v) :: fs, (l, w) :: gs => k == l && JSVal.beq v w && JSVal.beqFields fs gs
  | _, _ => false

end

instance : BEq JSVal := ⟨JSVal.beq⟩

/-- JavaScript truthiness, the semantics of the double-negation coercion
used by the source line `return !!Object.values(rows[0])[0]`. -/
def truthy : JSVal → Bool
  | .null => false
  | .undefined => false
  | .bool b => b
  | .int n => n != 0
  | .str s => s != ""
  | .arr _ => true
  | .obj _ => true

/-- JavaScript array indexing `a[i]`: the element when in range, otherwise
`undefined` (this is how `rows[0]` behaves on an empty result array). -/
def jsIndex : JSVal → Nat → JSVal
  | .arr xs, i => xs.getD i .undefined
  | _, _ => .undefined

/-- The JavaScript errors that flow through the adapter:
`engine` is an error thrown by better-sqlite3 (it carries a `code` string
such as SQLITE_CONSTRAINT_UNIQUE and a message), `sqlError` is an instance
of the `SQLError` class defined at the bottom of src/index.js, `typeError`
is a built-in TypeError (thrown e.g. by `Object.values(undefined)`), and
`plain` is a bare `new Error(message)`. -/
inductive JSErr where
  | engine (code : String) (message : String)
  | sqlError (message : String) (code : String)
  | typeError (message : String)
  | plain (message : String)
deriving DecidableEq, Repr

/-- The `err.code` property: better-sqlite3 errors and `SQLError` carry one,
a built-in TypeError or a bare Error does not (`undefined`, modelled as
`none`). -/
def JSErr.errCode : JSErr → Option String
  | .engine c _ => some c
  | .sqlError _ c => some c
  | .typeError _ => none
  | .plain _ => none

/-- The `err.name` property; the `SQLError` class overrides the getter to
return the string SQLError (src/index.js lines 252-254). -/
def JSErr.errName : JSErr → String
  | .engine _ _ => "SqliteError"
  | .sqlError _ _ => "SQLError"
  | .typeError _ => "TypeError"
  | .plain _ => "Error"

/-- The `err.message` property. -/
def JSErr.errMessage : JSErr → String
  | .engine _ m => m
  | .sqlError m _ => m
  | .typeError m => m
  | .plain m => m

/-- The statement info object returned by `stmt.run()` in better-sqlite3:
`changes` (value of the sqlite3 changes counter for the statement) and
`lastInsertRowid`. -/
structure Info where
  changes : Nat
  lastInsertRowid : Int
deriving DecidableEq, Repr

/-- The info object as the JavaScript value `execute` resolves with. -/
def Info.toJS (i : Info) : JSVal :=
  .obj [("changes", .int i.changes), ("lastInsertRowid", .int i.lastInsertRowid)]

/-- The body of the callback `execute` hands to `waitForTick`
(src/index.js lines 197-208). The combined outcome of `this.db.prepare(sql)`
and `stmt.run(...)` — both inside the try block — is the argument: `.ok info`
when the statement succeeds, `.error err` when either throws. The catch
clause remaps a unique-constraint violation to a `SQLError` with code
ER_DUP_ENTRY and the original message, and rethrows every other error. -/
def executeCb (engine : Except JSErr Info) : Except JSErr JSVal :=
  match engine with
  | .ok info => .ok info.toJS
  | .error err =>
      if err.errCode = some "SQLITE_CONSTRAINT_UNIQUE" then
        .error (.sqlError err.errMessage "ER_DUP_ENTRY")
      else
        .error err

/-- The field-metadata mapper `mapColumns` (src/index.js lines 242-244):
`column => ({ name: column.name })`. -/
def mapColumns (columnName : String) : JSVal :=
  .obj [("name", .str columnName)]

/-- The value the callback of `query` returns (src/index.js lines 213-220):
the two-element array `[rows, fields]`, where `rows` is the materialized
result of `stmt.all(...)` (a JS array of row objects, here the parameter
`rows`), and `fields` is `stmt.columns().map(mapColumns)` unless
`opts.fields === false`, in which case it is `null`. `cols` is the list of
result column names reported by `stmt.columns()`. -/
def queryRet (rows : List Obj) (cols : List String) (fieldsEnabled : Bool) : JSVal :=
  .arr [.arr (rows.map .obj),
        if fieldsEnabled then .arr (cols.map mapColumns) else .null]

/-- Whether the `fields` metadata is computed, from the `opts` argument of
`query`: `!opts || opts.fields !== false`. `none` models a call without
`opts` (the public two-argument `query`); `some v` models `opts.fields = v`. -/
def fieldsEnabledOf : Option JSVal → Bool
  | none => true
  | some v => !(v == .bool false)

/-- `_select` (src/index.js lines 159-162): destructures the result of
`this.query(sql, values)` — no `opts`, so metadata is computed — and returns
its first component, the rows array. -/
def selectRet (rows : List Obj) (cols : List String) : JSVal :=
  jsIndex (queryRet rows cols (fieldsEnabledOf none)) 0

/-- `_selectOne` (src/index.js lines 164-167): destructures
`this.query(sql, values, { fields: false })` and returns `rows[0]` —
`undefined` when no row matched. -/
def selectOneRet (rows : List Obj) (cols : List String) : JSVal :=
  jsIndex (jsIndex (queryRet rows cols (fieldsEnabledOf (some (.bool false)))) 0) 0

/-- `Object.values(v)`: the list of own enumerable property values for an
object, a TypeError for `undefined` or `null`. (Other primitives return
lists the adapter never sees: rows from `stmt.all` are always objects or,
for `rows[0]` on an empty result, `undefined`.) -/
def objectValues : JSVal → Except JSErr (List JSVal)
  | .obj fs => .ok (fs.map Prod.snd)
  | .undefined => .error (.typeError "Cannot convert undefined or null to object")
  | .null => .error (.typeError "Cannot convert undefined or null to object")
  | .arr xs => .ok xs
  | _ => .ok []

/-- `_exists` (src/index.js lines 169-173): queries with `fields: false`,
then evaluates `!!Object.values(rows[0])[0]`. The outcome is `.error` when
that expression throws (empty result: `rows[0]` is `undefined`). -/
def existsRet (rows : List Obj) (cols : List String) : Except JSErr JSVal := do
  let row := jsIndex (jsIndex (queryRet rows cols (fieldsEnabledOf (some (.bool false)))) 0) 0
  let vs ← objectValues row
  pure (.bool (truthy (vs.getD 0 .undefined)))

/-- `_count` (src/index.js lines 175-179): queries with `fields: false`,
then evaluates `Object.values(rows[0])[0]`. -/
def countRet (rows : List Obj) (cols : List String) : Except JSErr JSVal := do
  let row := jsIndex (jsIndex (queryRet rows cols (fieldsEnabledOf (some (.bool false)))) 0) 0
  let vs ← objectValues row
  pure (vs.getD 0 .undefined)

/-- Modelled from the spec: the statement the external query-builder base
class hands to `_exists`/`_count` is an aggregate select
(`SELECT EXISTS(SELECT 1 FROM ...)` respectively `SELECT COUNT(1) FROM ...`,
per the README usage comments); an aggregate select without GROUP BY always
materializes exactly one row with the aggregate as its single column. -/
def aggregateRows (columnName : String) (v : JSVal) : List Obj :=
  [[(columnName, v)]]

/-! ### Engine model for INSERT and the lastInsertRowid counter

The engine slice the insert claims depend on, following the SQLite
semantics the repository tests exercise (src test file, tests
`insert with explicit ROWID`, `insert without explicit ROWID` and
`insert but table is WITHOUT ROWID`, whose comment records that a
lastInsertId for WITHOUT ROWID tables is not meaningful): an INSERT into a
rowid table assigns the next sequence value as the new rowid and sets the
lastInsertRowid counter to it; an INSERT into a table declared
WITHOUT ROWID stores the row under its declared primary key and leaves the
lastInsertRowid counter untouched. -/

/-- Whether the single modelled table is an ordinary rowid table or was
declared WITHOUT ROWID. -/
inductive TableKind where
  | rowid
  | withoutRowid
deriving DecidableEq, Repr

/-- The engine state the insert claims need: one table, stored as a list of
(row identifier, row record) pairs, plus the AUTOINCREMENT sequence and the
connection-level lastInsertRowid counter. For a rowid table the row
identifier is the integer rowid the engine assigns; for a WITHOUT ROWID
table it is the declared primary key value. -/
structure EngineState where
  kind : TableKind
  seq : Int
  lastInsertRowid : Int
  table : List (JSVal × Obj)
deriving Repr

/-- One INSERT executed by the engine: returns the post-state and the info
object `stmt.run` hands back (`changes = 1`; `lastInsertRowid` is the value
of the counter after the statement). `pk` is the primary key value of the
inserted row, used as the row identifier only for WITHOUT ROWID tables. -/
def engineInsert (s : EngineState) (pk : JSVal) (data : Obj) : EngineState × Info :=
  match s.kind with
  | .rowid =>
      let rid := s.seq + 1
      ({ s with seq := rid, lastInsertRowid := rid, table := s.table ++ [(.int rid, data)] },
       { changes := 1, lastInsertRowid := rid })
  | .withoutRowid =>
      ({ s with table := s.table ++ [(pk, data)] },
       { changes := 1, lastInsertRowid := s.lastInsertRowid })

/-- `_insert` (src/index.js lines 154-157): runs the INSERT through
`execute` and returns `info.lastInsertRowid`. -/
def insertRet (s : EngineState) (pk : JSVal) (data : Obj) : EngineState × Int :=
  let (s2, info) := engineInsert s pk data
  (s2, info.lastInsertRowid)

/-! ### Engine model for UPDATE and DELETE -/

/-- One UPDATE executed by the engine on the rows of a table: every row
matching the WHERE predicate is rewritten by the SET clause `f`. The
`changes` counter sqlite reports counts the matched rows — a matched row
counts even when `f` leaves its content identical. -/
def engineUpdate (rows : List Obj) (pred : Obj → Bool) (f : Obj → Obj) : List Obj × Nat :=
  (rows.map fun r => if pred r then f r else r, (rows.filter pred).length)

/-- One DELETE executed by the engine: rows matching the WHERE predicate are
removed and counted by the `changes` counter. -/
def engineDelete (rows : List Obj) (pred : Obj → Bool) : List Obj × Nat :=
  (rows.filter fun r => !pred r, (rows.filter pred).length)

/-- `_update` (src/index.js lines 181-185): runs the statement through
`execute` and returns `info.changes`. -/
def updateRet (rows : List Obj) (pred : Obj → Bool) (f : Obj → Obj) : List Obj × Nat :=
  let (rows2, changes) := engineUpdate rows pred f
  (rows2, changes)

/-- `_delete` (src/index.js lines 187-191): runs the statement through
`execute` and returns `info.changes`. -/
def deleteRet (rows : List Obj) (pred : Obj → Bool) : List Obj × Nat :=
  let (rows2, changes) := engineDelete rows pred
  (rows2, changes)

/-- The number of UPDATE-matched rows whose content actually changes: rows
matched by the WHERE predicate for which the SET clause produces a record
different from the existing one (deep JS equality). -/
def contentChangedCount (rows : List Obj) (pred : Obj → Bool) (f : Obj → Obj) : Nat :=
  (rows.filter fun r => pred r && !(f r == r)).length

/-! ### createDatabase / dropDatabase / dropTable -/

/-- `_createDatabase` (src/index.js lines 138-140): the body is a single
`throw new Error(...)`. The second component records which SQL statements
the body hands to the engine — none. -/
def createDatabaseRet (_sql : String) : Except JSErr Unit × List String :=
  (.error (.plain "Operation is not supported by SQLite"), [])

/-- `_dropDatabase` (src/index.js lines 142-144): identical body. -/
def dropDatabaseRet (_sql : String) : Except JSErr Unit × List String :=
  (.error (.plain "Operation is not supported by SQLite"), [])

/-- `_dropTable` (src/index.js lines 150-152), for contrast: it does hand
its statement to the engine via `execute`. -/
def dropTableRet (sql : String) : Except JSErr Unit × List String :=
  (.ok (), [sql])

/-! ### Event-loop model for waitForTick

`waitForTick` (src/index.js lines 230-240) wraps its callback in
`new Promise` whose executor calls `setImmediate`: the callback is appended
to the single FIFO macrotask queue of the host event loop and runs there,
inside a try/catch that resolves the promise with the callback result or
rejects it with the thrown error. The model is that queue: scheduling
appends a task; the loop pops tasks in order, each producing one trace
event. -/

/-- A macrotask in the host event-loop queue: either work that was already
pending when the adapter was called (a timer, I/O completion, ...)
identified by a number, or the deferred callback of one adapter call,
identified by a call number. A throwing JS callback is a callback whose
outcome is `.error`. -/
inductive Macrotask where
  | extPending (taskId : Nat)
  | deferredCall (callId : Nat) (cb : Unit → Except JSErr JSVal)

/-- What running one macrotask produces in the trace: pending external work
ran, or the promise of call `callId` settled (resolved or rejected). An
uncaught exception event is never produced by the tasks `waitForTick`
schedules, because of its try/catch; the constructor exists so the absence
is sayable. -/
inductive TraceEv where
  | ranPending (taskId : Nat)
  | resolved (callId : Nat) (v : JSVal)
  | rejected (callId : Nat) (e : JSErr)
  | uncaughtException (callId : Nat) (e : JSErr)

/-- Run one macrotask. For a deferred adapter callback this is the body of
the `setImmediate` callback in `waitForTick`: `try { resolve(cb()) } catch
(err) { reject(err) }`. -/
def runTask : Macrotask → TraceEv
  | .extPending i => .ranPending i
  | .deferredCall i cb =>
      match cb () with
      | .ok v => .resolved i v
      | .error e => .rejected i e

/-- Drain the event-loop queue in FIFO order, producing the trace. -/
def runLoop (q : List Macrotask) : List TraceEv :=
  q.map runTask

/-- The synchronous phase of `execute` (src/index.js lines 195-210): calling
it builds the promise and schedules the callback — `setImmediate` appends it
to the macrotask queue — and returns at once; no engine work happens in this
phase. `engine` is the engine behaviour of this statement: the outcome of
`this.db.prepare(sql)` plus `stmt.run(...)` once actually run (an `.error`
models either of them throwing). -/
def executeCall (q : List Macrotask) (i : Nat) (engine : Unit → Except JSErr Info) : List Macrotask :=
  q ++ [.deferredCall i fun u => executeCb (engine u)]

/-- The synchronous phase of `query` (src/index.js lines 212-221): same
scheduling; the deferred callback prepares the statement, materializes the
rows and the column names, and builds `[rows, fields]`. Unlike `execute`
the callback body has no try/catch of its own: an engine throw reaches the
catch inside `waitForTick` directly. -/
def queryCall (q : List Macrotask) (i : Nat)
    (engine : Unit → Except JSErr (List Obj × List String)) (opts : Option JSVal) : List Macrotask :=
  q ++ [.deferredCall i fun u =>
    (engine u).map fun rc => queryRet rc.1 rc.2 (fieldsEnabledOf opts)]

/-- Whether a trace event is an uncaught exception escaping a macrotask. -/
def TraceEv.isUncaught : TraceEv → Bool
  | .uncaughtException _ _ => true
  | _ => false

/-- Whether a JS value is a two-element array — the shape the destructuring
`const [a, b] = v` in the README usage of `execute` and `query` expects. -/
def isTwoElemArray : JSVal → Bool
  | .arr [_, _] => true
  | _ => false

/-! ### Concrete sanity evaluations, mirroring the fixtures of the test file -/

example : executeCb (.error (.engine "SQLITE_CONSTRAINT_UNIQUE" "UNIQUE constraint failed: users5.username"))
    = .error (.sqlError "UNIQUE constraint failed: users5.username" "ER_DUP_ENTRY") := rfl

example : executeCb (.error (.engine "SQLITE_BUSY" "database is locked"))
    = .error (.engine "SQLITE_BUSY" "database is locked") := rfl

example : existsRet (aggregateRows "EXISTS(SELECT 1 FROM `users8` WHERE username = ? LIMIT 1)" (.int 1)) []
    = .ok (.bool true) := rfl

example : countRet (aggregateRows "COUNT(1)" (.int 2)) [] = .ok (.int 2) := rfl

example : existsRet [] [] = .error (.typeError "Cannot convert undefined or null to object") := rfl

example : selectRet [[("username", .str "joe")], [("username", .str "bob")]] ["username"]
    = .arr [.obj [("username", .str "joe")], .obj [("username", .str "bob")]] := rfl

example : selectOneRet [] ["username"] = .undefined := rfl

example :
    (updateRet [[("username", .str "joe")], [("username", .str "alice")]]
      (fun _ => true) (fun _ => [("username", .str "alice")])).2 = 2 := rfl

example :
    contentChangedCount [[("username", .str "joe")], [("username", .str "alice")]]
      (fun _ => true) (fun _ => [("username", .str "alice")]) = 1 := rfl

example :
    (insertRet { kind := .rowid, seq := 0, lastInsertRowid := 0, table := [] }
      (.int 1) [("name", .str "a")]).2 = 1 := rfl

/-! ## Claim theorems -/

/-- C1: an engine failure whose code is SQLITE_CONSTRAINT_UNIQUE makes the
promise returned by `execute` reject with a `SQLError` (name SQLError) whose
code is ER_DUP_ENTRY and whose message is the original engine message; an
engine failure with any other code is rethrown unchanged, so it reaches the
caller as-is. -/
theorem execute_unique_violation_remapped (i : Nat) (err : JSErr) :
    (err.errCode = some "SQLITE_CONSTRAINT_UNIQUE" →
      executeCb (.error err) = .error (.sqlError err.errMessage "ER_DUP_ENTRY") ∧
      runTask (.deferredCall i fun _ => executeCb (.error err)) =
        .rejected i (.sqlError err.errMessage "ER_DUP_ENTRY") ∧
      (JSErr.sqlError err.errMessage "ER_DUP_ENTRY").errName = "SQLError" ∧
      (JSErr.sqlError err.errMessage "ER_DUP_ENTRY").errMessage = err.errMessage ∧
      (JSErr.sqlError err.errMessage "ER_DUP_ENTRY").errCode = some "ER_DUP_ENTRY") ∧
    (err.errCode ≠ some "SQLITE_CONSTRAINT_UNIQUE" →
      executeCb (.error err) = .error err ∧
      runTask (.deferredCall i fun _ => executeCb (.error err)) = .rejected i err) := by
  constructor
  · intro h
    refine ⟨?_, ?_, rfl, rfl, rfl⟩
    · simp [executeCb, h]
    · simp [runTask, executeCb, h]
  · intro h
    refine ⟨?_, ?_⟩
    · simp [executeCb, h]
    · simp [runTask, executeCb, h]

/-- Witness for the C1 theorem at the two constraint outcomes the tests
exercise: the unique-violation error of test `insert unique`, remapped, and
a busy error, propagated unchanged. -/
theorem execute_unique_violation_remapped_witness :
    executeCb (.error (.engine "SQLITE_CONSTRAINT_UNIQUE" "UNIQUE constraint failed: users5.username"))
      = .error (.sqlError "UNIQUE constraint failed: users5.username" "ER_DUP_ENTRY") ∧
    executeCb (.error (.engine "SQLITE_BUSY" "database is locked"))
      = .error (.engine "SQLITE_BUSY" "database is locked") :=
  ⟨((execute_unique_violation_remapped 0
      (.engine "SQLITE_CONSTRAINT_UNIQUE" "UNIQUE constraint failed: users5.username")).1
      (by decide)).1,
   ((execute_unique_violation_remapped 0
      (.engine "SQLITE_BUSY" "database is locked")).2 (by decide)).1⟩

/-- C5: on a result whose first row has at least one column, `_exists`
returns the JS boolean coercion of the first column value of the first row,
and `_count` returns that first column value itself. -/
theorem exists_count_first_column_of_first_row (k : String) (v : JSVal) (fs : Obj)
    (rest : List Obj) (cols : List String) :
    existsRet (((k, v) :: fs) :: rest) cols = .ok (.bool (truthy v)) ∧
    countRet (((k, v) :: fs) :: rest) cols = .ok v := by
  constructor <;> rfl

/-- C6: `_createDatabase` and `_dropDatabase` reject every call with the
unsupported-operation error and hand no statement to the engine (empty
executed-statement list), while `_dropTable` — for contrast — does execute
its statement. -/
theorem createDatabase_dropDatabase_always_fail (sql : String) :
    createDatabaseRet sql = (.error (.plain "Operation is not supported by SQLite"), []) ∧
    dropDatabaseRet sql = (.error (.plain "Operation is not supported by SQLite"), []) ∧
    (JSErr.plain "Operation is not supported by SQLite").errCode = none ∧
    dropTableRet sql = (.ok (), [sql]) :=
  ⟨rfl, rfl, rfl, rfl⟩

/-- C7: `_select` returns the plain array of row records of the query,
`_selectOne` returns its first element (`undefined` when there is none);
neither attaches metadata to the rows, while `query` itself carries the
per-column name objects in its second component when fields are enabled and
`null` when disabled. -/
theorem select_selectOne_plain_rows (rows : List Obj) (cols : List String) :
    selectRet rows cols = .arr (rows.map .obj) ∧
    selectOneRet rows cols = (rows.map JSVal.obj).getD 0 .undefined ∧
    jsIndex (queryRet rows cols true) 1 = .arr (cols.map mapColumns) ∧
    jsIndex (queryRet rows cols false) 1 = .null := by
  refine ⟨?_, ?_, rfl, rfl⟩ <;>
    simp [selectRet, selectOneRet, queryRet, jsIndex, fieldsEnabledOf]

/-- Helper: filtering with a conjoined predicate keeps at most as many rows
as filtering with the first conjunct alone. -/
theorem length_filter_and_le (rows : List Obj) (p q : Obj → Bool) :
    (rows.filter fun r => p r && q r).length ≤ (rows.filter p).length := by
  induction rows with
  | nil => simp
  | cons r rs ih =>
      by_cases hp : p r <;> by_cases hq : q r <;>
        simp [List.filter_cons, hp, hq] <;> omega

/-- C2 counterexample: on the WITHOUT ROWID table of the test fixture
(uuid TEXT PRIMARY KEY), inserting the rows with keys f-f-a and f-f-b makes
`insert` return the untouched lastInsertRowid counter (0) both times; the
stored identifiers of the two inserted rows are the uuid strings, and the
returned integer is neither of them. -/
theorem insert_without_rowid_not_identifier_cx :
    (insertRet { kind := .withoutRowid, seq := 0, lastInsertRowid := 0, table := [] }
      (.str "f-f-a") [("uuid", .str "f-f-a"), ("name", .str "a")]).2 = 0 ∧
    (insertRet
      (insertRet { kind := .withoutRowid, seq := 0, lastInsertRowid := 0, table := [] }
        (.str "f-f-a") [("uuid", .str "f-f-a"), ("name", .str "a")]).1
      (.str "f-f-b") [("uuid", .str "f-f-b"), ("name", .str "b")]).2 = 0 ∧
    (insertRet
      (insertRet { kind := .withoutRowid, seq := 0, lastInsertRowid := 0, table := [] }
        (.str "f-f-a") [("uuid", .str "f-f-a"), ("name", .str "a")]).1
      (.str "f-f-b") [("uuid", .str "f-f-b"), ("name", .str "b")]).1.table =
      [(.str "f-f-a", [("uuid", .str "f-f-a"), ("name", .str "a")]),
       (.str "f-f-b", [("uuid", .str "f-f-b"), ("name", .str "b")])] ∧
    JSVal.int 0 ≠ JSVal.str "f-f-a" ∧ JSVal.int 0 ≠ JSVal.str "f-f-b" := by
  refine ⟨rfl, rfl, rfl, ?_, ?_⟩ <;> intro h <;> exact JSVal.noConfusion h

/-- C2 amended: `_insert` returns the lastInsertRowid of the info object;
for a rowid table this is the engine-assigned rowid under which the inserted
row is stored, while for a WITHOUT ROWID table the insert stores the row
under its primary key and leaves the counter at its previous value, which is
what gets returned. -/
theorem insert_returns_lastInsertRowid (s : EngineState) (pk : JSVal) (data : Obj) :
    (insertRet s pk data).2 =
      (match s.kind with
       | .rowid => s.seq + 1
       | .withoutRowid => s.lastInsertRowid) ∧
    (insertRet s pk data).1.table =
      s.table ++ [((match s.kind with
                    | .rowid => JSVal.int (s.seq + 1)
                    | .withoutRowid => pk), data)] := by
  rcases s with ⟨k, seq, lir, tab⟩
  cases k <;> simp [insertRet, engineInsert]

/-- C3 counterexample: mirroring the update fixture of the test file (which
expects the result 2 and annotates it with the words 1 changed, 2 affected),
setting every username to alice when one row already holds alice makes
`_update` return 2, while only 1 row actually changes content. -/
theorem update_counts_affected_not_changed_cx :
    (updateRet [[("username", .str "joe")], [("username", .str "alice")]]
        (fun _ => true) (fun _ => [("username", .str "alice")])).2 = 2 ∧
    contentChangedCount [[("username", .str "joe")], [("username", .str "alice")]]
        (fun _ => true) (fun _ => [("username", .str "alice")]) = 1 ∧
    (2 : Nat) ≠ 1 := by
  refine ⟨rfl, rfl, by omega⟩

/-- C3 amended: `_update` and `_delete` return the engine changes counter,
which counts the rows matched (affected) by the WHERE clause; the count of
rows whose content actually changes is at most that and can be smaller for
`_update` when a matched row is set to its existing values. -/
theorem update_delete_return_affected_count (rows : List Obj) (pred : Obj → Bool)
    (f : Obj → Obj) :
    (updateRet rows pred f).2 = (rows.filter pred).length ∧
    (deleteRet rows pred).2 = (rows.filter pred).length ∧
    (updateRet rows pred f).1 = rows.map (fun r => if pred r then f r else r) ∧
    (deleteRet rows pred).1 = rows.filter (fun r => !pred r) ∧
    contentChangedCount rows pred f ≤ (updateRet rows pred f).2 := by
  refine ⟨rfl, rfl, rfl, rfl, ?_⟩
  exact length_filter_and_le rows pred (fun r => !(f r == r))

/-- C4: evaluated at the failing input of the README usage (an INSERT whose
info is changes 1, lastInsertRowid 1), `execute` resolves with the bare info
object, which is not a two-element array — the destructuring
`const [res, fields] = await db.execute(...)` the README shows cannot work —
while `query` does resolve with the two-element `[rows, fields]` array
holding one name object per result column. -/
theorem execute_resolves_with_bare_info :
    executeCb (.ok { changes := 1, lastInsertRowid := 1 }) =
      .ok (.obj [("changes", .int 1), ("lastInsertRowid", .int 1)]) ∧
    isTwoElemArray (Info.toJS { changes := 1, lastInsertRowid := 1 }) = false ∧
    isTwoElemArray
      (queryRet [[("id", .int 1), ("username", .str "joe")]] ["id", "username"] true) = true ∧
    queryRet [[("id", .int 1), ("username", .str "joe")]] ["id", "username"] true =
      .arr [.arr [.obj [("id", .int 1), ("username", .str "joe")]],
            .arr [.obj [("name", .str "id")], .obj [("name", .str "username")]]] :=
  ⟨rfl, rfl, rfl, rfl⟩

/-- C8: scheduling `execute` or `query` merely appends the deferred engine
work to the macrotask queue; draining the loop runs every task that was
pending at call time first, and the promise settles — with the callback
result — only in the single event after all of them. Two consecutive
adapter calls settle after all previously pending work, in call order, so
pending timers and I/O run in between. -/
theorem execute_query_yield_before_engine_work (q : List Macrotask) (i j : Nat)
    (eng : Unit → Except JSErr Info)
    (engQ : Unit → Except JSErr (List Obj × List String)) (opts : Option JSVal) :
    runLoop (executeCall q i eng) =
      runLoop q ++ [match executeCb (eng ()) with
                    | .ok v => .resolved i v
                    | .error e => .rejected i e] ∧
    runLoop (queryCall q j engQ opts) =
      runLoop q ++ [match (engQ ()).map (fun rc => queryRet rc.1 rc.2 (fieldsEnabledOf opts)) with
                    | .ok v => .resolved j v
                    | .error e => .rejected j e] ∧
    runLoop (queryCall (executeCall q i eng) j engQ opts) =
      runLoop q ++ [match executeCb (eng ()) with
                    | .ok v => .resolved i v
                    | .error e => .rejected i e]
        ++ [match (engQ ()).map (fun rc => queryRet rc.1 rc.2 (fieldsEnabledOf opts)) with
            | .ok v => .resolved j v
            | .error e => .rejected j e] ∧
    (runLoop (executeCall q i eng)).length = q.length + 1 := by
  refine ⟨?_, ?_, ?_, ?_⟩ <;> simp [runLoop, executeCall, queryCall, runTask]

/-- C9: on the single-row result an EXISTS/COUNT aggregate statement always
materializes, `_exists` and `_count` succeed with the coerced respectively
raw first column value, so their failure branch is unreachable through the
statements the base class builds; on a zero-row result `rows[0]` is
undefined and both operations fail with the TypeError of
`Object.values(undefined)` instead of producing false or 0. -/
theorem exists_count_zero_rows_type_error (columnName : String) (v : JSVal)
    (cols : List String) :
    existsRet (aggregateRows columnName v) cols = .ok (.bool (truthy v)) ∧
    countRet (aggregateRows columnName v) cols = .ok v ∧
    existsRet [] cols = .error (.typeError "Cannot convert undefined or null to object") ∧
    countRet [] cols = .error (.typeError "Cannot convert undefined or null to object") :=
  ⟨rfl, rfl, rfl, rfl⟩

/-- C10: the synchronous phase of `execute` and of `query` only appends the
deferred callback to the queue — no engine work runs, nothing can throw at
call time; a deferred callback never escapes the tick as an uncaught
exception, whatever its outcome; and an error thrown inside the deferred
tick (while preparing or running the statement, modelled as an `.error`
callback outcome) surfaces exactly as the rejection of the returned
promise, with the mapped error for `execute` and the original error for
`query`. -/
theorem adapter_errors_surface_as_rejections (q : List Macrotask) (i : Nat)
    (eng : Unit → Except JSErr Info)
    (engQ : Unit → Except JSErr (List Obj × List String))
    (opts : Option JSVal) (e : JSErr) :
    (∃ cb, executeCall q i eng = q ++ [.deferredCall i cb]) ∧
    (∃ cb, queryCall q i engQ opts = q ++ [.deferredCall i cb]) ∧
    (∀ cb : Unit → Except JSErr JSVal, (runTask (.deferredCall i cb)).isUncaught = false) ∧
    runTask (.deferredCall i fun _ => executeCb (.error e)) =
      .rejected i (if e.errCode = some "SQLITE_CONSTRAINT_UNIQUE"
                   then .sqlError e.errMessage "ER_DUP_ENTRY" else e) ∧
    runTask (.deferredCall i fun _ =>
      (Except.error e : Except JSErr (List Obj × List String)).map
        (fun rc => queryRet rc.1 rc.2 (fieldsEnabledOf opts))) = .rejected i e := by
  refine ⟨⟨_, rfl⟩, ⟨_, rfl⟩, ?_, ?_, rfl⟩
  · intro cb
    cases h : cb () <;> simp [runTask, h, TraceEv.isUncaught]
  · by_cases he : e.errCode = some "SQLITE_CONSTRAINT_UNIQUE" <;>
      simp [runTask, executeCb, he]
